import Mathlib

/-!
Verification of the Claudable core against its natural-language specification.

The development shallowly embeds the Python sources:
  - `apps/api/app/claudable_terminal/terminal_interactive.py`
    (class `InteractiveTerminal`): PTY session lifecycle, as state-passing
    functions over `TermState`, with OS calls resolved by an injected
    `OsBehavior` and side effects recorded in an `OsAction` trace;
  - `apps/api/app/core/websocket/claude_streaming.py`
    (class `ClaudeStreamingHandler`): the message classifier, as a pure
    function from a message and a clock value to a new state and a list of
    emitted events;
  - `apps/api/app/claudable_terminal/websocket_handler.py`
    (`TerminalWebSocket.broadcast_to_project`): the broadcast registry.

Python strings are Lean `String`s; Python slicing `s[:n]` is `pyTake`;
Python `datetime.now()` is an integer millisecond clock passed explicitly
(every call inside one handler sees the same instant); Python exceptions
raised by OS calls are `Except String` values of the `OsBehavior`, and the
`try/except` blocks of the source appear as `match`es on those values.
-/

namespace Claudable

/-- Python slice `s[:n]`: the first `n` characters (code points) of `s`. -/
def pyTake (s : String) (n : Nat) : String :=
  (s.toList.take n).asString

/-- Python quote character, used by `repr` of a string list. -/
def pyQuote : String :=
  String.singleton (Char.ofNat 39)

/-- Python `str(list_of_strings)` as produced inside an f-string. -/
def pyReprStrList (l : List String) : String :=
  "[" ++ String.intercalate ", " (l.map (fun k => pyQuote ++ k ++ pyQuote)) ++ "]"

theorem pyTake_length_le (s : String) (n : Nat) : (pyTake s n).length ≤ n := by
  have h : (pyTake s n).length = (s.toList.take n).length := rfl
  rw [h, List.length_take]
  exact min_le_left _ _

/-! ## UTF-8 decoding with an error handler

`bytes.decode('utf-8', errors=...)` in CPython: invalid portions are
handled per maximal subpart (an invalid lead byte consumes one byte; a
truncated or interrupted multi-byte sequence consumes its valid prefix),
and the handler either drops the invalid portion (`ignore`) or substitutes
U+FFFD (`replace`). -/

inductive DecodeMode where
  | ignoreErrors
  | replaceErrors
deriving DecidableEq, Repr

/-- Is `b` a UTF-8 continuation byte (0x80..0xBF)? -/
def isContByte (b : Nat) : Bool :=
  0x80 ≤ b && b ≤ 0xBF

/-- Lower bound for the first continuation byte after lead `b`
(CPython rejects overlong encodings and surrogates at this position). -/
def cont1Lo (b : Nat) : Nat :=
  if b = 0xE0 then 0xA0 else if b = 0xF0 then 0x90 else 0x80

/-- Upper bound for the first continuation byte after lead `b`. -/
def cont1Hi (b : Nat) : Nat :=
  if b = 0xED then 0x9F else if b = 0xF4 then 0x8F else 0xBF

/-- Decode one scalar starting at lead byte `b` with following bytes `rest`.
Returns the decoded character (`none` on an invalid portion) and the total
number of bytes consumed, at least 1. -/
def utf8Step (b : Nat) (rest : List Nat) : Option Char × Nat :=
  if b < 0x80 then
    (some (Char.ofNat b), 1)
  else if 0xC2 ≤ b && b ≤ 0xDF then
    match rest with
    | b1 :: _ =>
      if isContByte b1 then
        (some (Char.ofNat ((b - 0xC2 + 2) * 64 + (b1 - 0x80))), 2)
      else (none, 1)
    | [] => (none, 1)
  else if 0xE0 ≤ b && b ≤ 0xEF then
    match rest with
    | b1 :: rest1 =>
      if cont1Lo b ≤ b1 && b1 ≤ cont1Hi b then
        match rest1 with
        | b2 :: _ =>
          if isContByte b2 then
            (some (Char.ofNat ((b - 0xE0) * 4096 + (b1 - 0x80) * 64 + (b2 - 0x80))), 3)
          else (none, 2)
        | [] => (none, 2)
      else (none, 1)
    | [] => (none, 1)
  else if 0xF0 ≤ b && b ≤ 0xF4 then
    match rest with
    | b1 :: rest1 =>
      if cont1Lo b ≤ b1 && b1 ≤ cont1Hi b then
        match rest1 with
        | b2 :: rest2 =>
          if isContByte b2 then
            match rest2 with
            | b3 :: _ =>
              if isContByte b3 then
                (some (Char.ofNat
                  ((b - 0xF0) * 262144 + (b1 - 0x80) * 4096 + (b2 - 0x80) * 64 + (b3 - 0x80))), 4)
              else (none, 3)
            | [] => (none, 3)
          else (none, 2)
        | [] => (none, 2)
      else (none, 1)
    | [] => (none, 1)
  else (none, 1)

/-- Fuelled decoding loop; each step consumes at least one byte, so fuel
equal to the byte count suffices. -/
def utf8DecodeAux (mode : DecodeMode) : Nat → List Nat → List Char
  | 0, _ => []
  | _, [] => []
  | Nat.succ fuel, b :: rest =>
    let step := utf8Step b rest
    let tail := utf8DecodeAux mode fuel (List.drop (step.2 - 1) rest)
    match step.1, mode with
    | some c, _ => c :: tail
    | none, DecodeMode.ignoreErrors => tail
    | none, DecodeMode.replaceErrors => Char.ofNat 0xFFFD :: tail

/-- `bytes.decode('utf-8', errors=mode)`. -/
def utf8Decode (mode : DecodeMode) (bytes : List Nat) : String :=
  (utf8DecodeAux mode bytes.length bytes).asString

/-! ## PTY session (`InteractiveTerminal`)

State holds `project_id`, `current_dir`, and the three handles the Python
object stores (`process`, `master_fd`, `slave_fd`). OS-visible side
effects are recorded as a list of `OsAction`s; failable OS calls take
their outcome from an `OsBehavior`. Python truthiness on an fd field
(`if not self.master_fd`) is `fdTruthy`: false for `None` and for fd 0. -/

inductive OsAction where
  | ioctlWinsize (fd rows cols : Nat)
  | sigwinch (pid : Nat)
  | setNonblock (fd : Nat)
  | spawnProc (pid : Nat) (cmd : String)
  | writeFd (fd : Nat) (data : String)
  | readFd (fd maxBytes : Nat)
  | closeFd (fd : Nat)
  | terminateProc (pid : Nat)
  | killProc (pid : Nat)
deriving DecidableEq, Repr

/-- Outcomes of the OS calls a session makes; `Except.error e` models the
call raising an exception whose `str` is `e`. -/
structure OsBehavior where
  openptyR : Except String (Nat × Nat)
  spawnR : Except String Nat
  writeR : Except String Unit
  selectReadable : Bool
  readRaises : Bool
  kernelBuf : List Nat
  procAlive : Bool
  waitTimesOut : Bool
  shell : String

structure TermState where
  project_id : String
  current_dir : String
  process : Option Nat
  master_fd : Option Nat
  slave_fd : Option Nat
deriving DecidableEq, Repr

/-- A fresh `InteractiveTerminal(project_id)`. -/
def freshTerm (pid : String) (home : String) : TermState :=
  { project_id := pid, current_dir := home,
    process := none, master_fd := none, slave_fd := none }

/-- Python truthiness of a stored fd: `None` and `0` are falsy. -/
def fdTruthy : Option Nat → Bool
  | none => false
  | some n => n ≠ 0

structure TermResult where
  success : Bool
  session_id : Option String := none
  message : Option String := none
  error : Option String := none
  output : Option String := none
  has_more : Option Bool := none
deriving DecidableEq, Repr

/-- `_setup_terminal`: sets the 24x80 window size when `master_fd` is truthy. -/
def setup_terminal (st : TermState) : List OsAction :=
  if fdTruthy st.master_fd then [OsAction.ioctlWinsize (st.master_fd.getD 0) 24 80] else []

/-- `start_session(command=None)`. On `openpty` failure the assignment never
happens (state unchanged); after a successful `openpty`, a `Popen` failure
leaves the two fresh fds stored in the state and performs no close. -/
def start_session (os : OsBehavior) (command : Option String) (st : TermState) :
    TermResult × TermState × List OsAction :=
  match os.openptyR with
  | Except.error e => ({ success := false, error := some e }, st, [])
  | Except.ok (m, s) =>
    let st1 := { st with master_fd := some m, slave_fd := some s }
    let tr1 := setup_terminal st1
    let cmd := match command with
      | none => os.shell
      | some c => if c = "" then os.shell else c
    match os.spawnR with
    | Except.error e => ({ success := false, error := some e }, st1, tr1)
    | Except.ok pid =>
      ({ success := true, session_id := some st.project_id,
         message := some "Sessão interativa iniciada" },
       { st1 with process := some pid },
       tr1 ++ [OsAction.spawnProc pid cmd, OsAction.setNonblock m])

/-- `send_input(data)`. -/
def send_input (os : OsBehavior) (data : String) (st : TermState) :
    TermResult × TermState × List OsAction :=
  if fdTruthy st.master_fd && st.process.isSome then
    match os.writeR with
    | Except.ok _ =>
      ({ success := true }, st, [OsAction.writeFd (st.master_fd.getD 0) data])
    | Except.error e => ({ success := false, error := some e }, st, [])
  else
    ({ success := false, error := some "Sessão não iniciada" }, st, [])

/-- `read_output(timeout=0.1)`: `select`, then `os.read(master_fd, 4096)` and
`decode('utf-8', errors='ignore')`; an `OSError` from the read is caught and
reported as empty output. -/
def read_output (os : OsBehavior) (st : TermState) :
    TermResult × TermState × List OsAction :=
  if fdTruthy st.master_fd && st.process.isSome then
    if os.selectReadable then
      if os.readRaises then
        ({ success := true, output := some "", has_more := some false }, st, [])
      else
        ({ success := true,
           output := some (utf8Decode DecodeMode.ignoreErrors (os.kernelBuf.take 4096)),
           has_more := some true },
         st, [OsAction.readFd (st.master_fd.getD 0) 4096])
    else
      ({ success := true, output := some "", has_more := some false }, st, [])
  else
    ({ success := false, error := some "Sessão não iniciada" }, st, [])

/-- `resize_terminal(rows, cols)`: when `master_fd` is truthy, pack the
window size with `struct.pack('HHHH', rows, cols, 0, 0)` — which raises
`struct.error` for a value above 65535, caught by the handler's `except`
into a failure dict before any ioctl — then set the window size and send
SIGWINCH only when a live process exists. -/
def resize_terminal (os : OsBehavior) (rows cols : Nat) (st : TermState) :
    TermResult × TermState × List OsAction :=
  if fdTruthy st.master_fd then
    if rows ≤ 65535 && cols ≤ 65535 then
      let tr2 := match st.process with
        | some pid => if os.procAlive then [OsAction.sigwinch pid] else []
        | none => []
      ({ success := true }, st,
       OsAction.ioctlWinsize (st.master_fd.getD 0) rows cols :: tr2)
    else
      ({ success := false,
         error := some "ushort format requires 0 <= number <= 65535" }, st, [])
  else
    ({ success := true }, st, [])

/-- `close_session()`: terminate (escalating to kill after the 2s wait times
out), close each truthy fd, then clear all three handles. -/
def close_session (os : OsBehavior) (st : TermState) :
    TermResult × TermState × List OsAction :=
  let trProc := match st.process with
    | some pid =>
      if os.waitTimesOut then [OsAction.terminateProc pid, OsAction.killProc pid]
      else [OsAction.terminateProc pid]
    | none => []
  let trM := if fdTruthy st.master_fd then [OsAction.closeFd (st.master_fd.getD 0)] else []
  let trS := if fdTruthy st.slave_fd then [OsAction.closeFd (st.slave_fd.getD 0)] else []
  ({ success := true, message := some "Sessão encerrada" },
   { st with process := none, master_fd := none, slave_fd := none },
   trProc ++ trM ++ trS)

/-- `is_alive()`: a process handle exists and `poll()` returns `None`. -/
def is_alive (os : OsBehavior) (st : TermState) : Bool :=
  st.process.isSome && os.procAlive

/-- Number of `closeFd` actions on a given fd in a trace. -/
def countCloseOf (fd : Nat) (tr : List OsAction) : Nat :=
  tr.count (OsAction.closeFd fd)

/-- Number of `closeFd` actions (any fd) in a trace. -/
def countCloses (tr : List OsAction) : Nat :=
  (tr.filter (fun a => match a with | OsAction.closeFd _ => true | _ => false)).length

/-- Does a trace contain no `terminateProc` and no `killProc` action? -/
def noTermination (tr : List OsAction) : Bool :=
  tr.all (fun a => match a with
    | OsAction.terminateProc _ => false
    | OsAction.killProc _ => false
    | _ => true)

/-- A structured result dict: success, or failure carrying an error string. -/
def wellFormedResult (r : TermResult) : Prop :=
  r.success = true ∨ (r.success = false ∧ r.error.isSome = true)

/-! ## Event classifier (`ClaudeStreamingHandler`)

A message is a dict; `message.get(k, d)` is `Option.getD`. Tool inputs are
association lists of string keys to string values. Each processed message
sees one clock value `now` (integer milliseconds); `datetime.now()` inside
one handler always yields that value. Events are the payload dicts passed
to `manager.send_message`, with their `timestamp` as the clock value. -/

structure PendingTool where
  name : String
  input : List (String × String)
  start_time : Int
deriving DecidableEq, Repr

structure Msg where
  type : String := ""
  content : Option String := none
  id : Option String := none
  name : Option String := none
  input : Option (List (String × String)) := none
  tool_use_id : Option String := none
  is_error : Option Bool := none
  session_id : Option String := none
  total_cost_usd : Option Int := none
  num_turns : Option Nat := none
  api_duration_ms : Option Int := none
  message : Option String := none
deriving DecidableEq, Repr

inductive Event where
  | assistantMessage (content : String) (ts : Int)
  | assistantThinking (content : String) (ts : Int)
  | toolUse (tool_id tool_name summary : String)
      (input : List (String × String)) (ts : Int)
  | toolResult (tool_id tool_name : String) (content : Option String)
      (is_error : Bool) (duration_ms : Option Int) (ts : Int)
  | completion (session_id : Option String) (is_error : Bool)
      (total_cost_usd : Option Int) (num_turns : Option Nat)
      (api_duration_ms : Option Int) (total_duration_ms : Option Int)
      (message_count : Nat) (ts : Int)
  | errorEvent (message : String) (ts : Int)
deriving DecidableEq, Repr

structure ClassifierState where
  project_id : String
  pending_tools : List (String × PendingTool) := []
  response_text : String := ""
  start_time : Option Int := none
  message_count : Nat := 0
deriving DecidableEq, Repr

/-- A fresh `ClaudeStreamingHandler(project_id)`. -/
def mkClassifier (pid : String) : ClassifierState :=
  { project_id := pid }

/-- `start_tracking()`. -/
def start_tracking (now : Int) (st : ClassifierState) : ClassifierState :=
  { st with start_time := some now, message_count := 0,
            response_text := "", pending_tools := [] }

/-- Lookup in the `pending_tools` dict. -/
def dictLookup (k : String) : List (String × PendingTool) → Option PendingTool
  | [] => none
  | (k2, v) :: rest => if k2 = k then some v else dictLookup k rest

/-- Removal half of `dict.pop(k, default)`; keys are unique, so removing
the first occurrence matches Python. -/
def dictRemove (k : String) : List (String × PendingTool) → List (String × PendingTool)
  | [] => []
  | (k2, v) :: rest => if k2 = k then rest else (k2, v) :: dictRemove k rest

/-- `d[k] = v`: replace in place when the key exists, else append
(Python dicts keep insertion order). -/
def dictInsert (k : String) (v : PendingTool) (d : List (String × PendingTool)) :
    List (String × PendingTool) :=
  if (dictLookup k d).isSome then
    d.map (fun kv => if kv.1 = k then (k, v) else kv)
  else d ++ [(k, v)]

/-- `tool_input.get(k, dflt)` on a string-valued input dict. -/
def dget (input : List (String × String)) (k dflt : String) : String :=
  match input.find? (fun kv => kv.1 = k) with
  | some kv => kv.2
  | none => dflt

/-- `_get_tool_summary(tool_name, tool_input)`. -/
def get_tool_summary (tool_name : String) (tool_input : List (String × String)) : String :=
  if tool_name = "Read" then "📖 Reading: " ++ dget tool_input "file_path" "unknown"
  else if tool_name = "Write" then "✏️ Writing: " ++ dget tool_input "file_path" "unknown"
  else if tool_name = "Edit" then "🔧 Editing: " ++ dget tool_input "file_path" "unknown"
  else if tool_name = "MultiEdit" then
    "🔧 Multi-editing: " ++ dget tool_input "file_path" "unknown"
  else if tool_name = "Bash" then
    let cmd := dget tool_input "command" ""
    "💻 Running: " ++ pyTake cmd 50 ++ (if cmd.length > 50 then "..." else "")
  else if tool_name = "Glob" then "🔍 Searching: " ++ dget tool_input "pattern" "unknown"
  else if tool_name = "Grep" then "🔎 Grep: " ++ dget tool_input "pattern" "unknown"
  else if tool_name = "LS" then "📁 Listing: " ++ dget tool_input "path" "current dir"
  else if tool_name = "WebFetch" then "🌐 Fetching: " ++ dget tool_input "url" "unknown"
  else if tool_name = "TodoWrite" then "📝 Managing todos"
  else "🔧 " ++ tool_name ++ ": " ++ pyReprStrList ((tool_input.map Prod.fst).take 3)

/-- `_handle_text`. -/
def handle_text (now : Int) (st : ClassifierState) (msg : Msg) :
    ClassifierState × List Event :=
  let content := msg.content.getD ""
  ({ st with response_text := st.response_text ++ content },
   [Event.assistantMessage content now])

/-- `_handle_thinking`: `content[:200] + "..." if len(content) > 200 else content`. -/
def handle_thinking (now : Int) (st : ClassifierState) (msg : Msg) :
    ClassifierState × List Event :=
  let content := msg.content.getD ""
  let display := if content.length > 200 then pyTake content 200 ++ "..." else content
  (st, [Event.assistantThinking display now])

/-- `_handle_tool_use`. -/
def handle_tool_use (now : Int) (st : ClassifierState) (msg : Msg) :
    ClassifierState × List Event :=
  let tool_id := msg.id.getD ""
  let tool_name := msg.name.getD ""
  let tool_input := msg.input.getD []
  let newPending := dictInsert tool_id ⟨tool_name, tool_input, now⟩ st.pending_tools
  let st2 := { st with pending_tools := newPending }
  (st2, [Event.toolUse tool_id tool_name (get_tool_summary tool_name tool_input)
          tool_input now])

/-- `_handle_tool_result`: pop with absence tolerated, name defaulting to
"unknown", duration only for a matched entry, content truncated to 500
characters (an empty content field is sent as `None`). -/
def handle_tool_result (now : Int) (st : ClassifierState) (msg : Msg) :
    ClassifierState × List Event :=
  let tool_id := msg.tool_use_id.getD ""
  let content := msg.content.getD ""
  let info := dictLookup tool_id st.pending_tools
  let tool_name := match info with
    | some pt => pt.name
    | none => "unknown"
  let duration_ms : Option Int := match info with
    | some pt => some (now - pt.start_time)
    | none => none
  let econtent : Option String := if content = "" then none else some (pyTake content 500)
  ({ st with pending_tools := dictRemove tool_id st.pending_tools },
   [Event.toolResult tool_id tool_name econtent (msg.is_error.getD false) duration_ms now])

/-- `_handle_result`. -/
def handle_result (now : Int) (st : ClassifierState) (msg : Msg) :
    ClassifierState × List Event :=
  let total_duration_ms : Option Int := match st.start_time with
    | some t => some (now - t)
    | none => none
  (st, [Event.completion msg.session_id (msg.is_error.getD false) msg.total_cost_usd
         msg.num_turns msg.api_duration_ms total_duration_ms st.message_count now])

/-- `_handle_error`. -/
def handle_error (now : Int) (st : ClassifierState) (msg : Msg) :
    ClassifierState × List Event :=
  (st, [Event.errorEvent (msg.message.getD "Unknown error") now])

/-- `handle_message`: increment the counter, then dispatch on `type`;
unrecognized kinds are only logged. -/
def handle_message (now : Int) (st : ClassifierState) (msg : Msg) :
    ClassifierState × List Event :=
  let st1 := { st with message_count := st.message_count + 1 }
  if msg.type = "text" then handle_text now st1 msg
  else if msg.type = "ultrathinking" ∨ msg.type = "thinking" then handle_thinking now st1 msg
  else if msg.type = "tool_use" then handle_tool_use now st1 msg
  else if msg.type = "tool_result" then handle_tool_result now st1 msg
  else if msg.type = "result" then handle_result now st1 msg
  else if msg.type = "error" then handle_error now st1 msg
  else (st1, [])

/-- Process a message sequence, the clock advancing by one millisecond per
message, collecting all emitted events in order. -/
def runMessages (t0 : Int) (st : ClassifierState) : List Msg → ClassifierState × List Event
  | [] => (st, [])
  | m :: rest =>
    let r1 := handle_message t0 st m
    let r2 := runMessages (t0 + 1) r1.1 rest
    (r2.1, r1.2 ++ r2.2)

/-! ## Broadcast registry (`TerminalWebSocket.broadcast_to_project`) -/

/-- A bound WebSocket channel; `sendR` is what its `send_json` does when
invoked (`Except.error e` models it raising). -/
structure WsChannel where
  chanId : Nat
  sendR : Except String Unit

structure WsRegistry where
  connections : List (String × WsChannel)

/-- Observable outcome of one broadcast call. -/
inductive BroadcastOutcome where
  | noChannel
  | delivered (chanId : Nat) (msg : String)
  | sendFailedLogged (chanId : Nat) (err : String)
deriving DecidableEq, Repr

def lookupChan (k : String) : List (String × WsChannel) → Option WsChannel
  | [] => none
  | (k2, v) :: rest => if k2 = k then some v else lookupChan k rest

/-- `broadcast_to_project(project_id, message)`: skip silently when no
channel is bound; catch and log a delivery failure. Always returns. -/
def broadcast_to_project (reg : WsRegistry) (pid : String) (msg : String) :
    BroadcastOutcome :=
  match lookupChan pid reg.connections with
  | none => BroadcastOutcome.noChannel
  | some ch =>
    match ch.sendR with
    | Except.ok _ => BroadcastOutcome.delivered ch.chanId msg
    | Except.error e => BroadcastOutcome.sendFailedLogged ch.chanId e

/-! ## Theorems -/

/-- The C1 message sequence: tool-start A, tool-result A, tool-start B,
end-of-turn result. -/
def c1Msgs : List Msg :=
  [ { type := "tool_use", id := some "A", name := some "Read",
      input := some [("file_path", "/tmp/x")] },
    { type := "tool_result", tool_use_id := some "A", content := some "ok" },
    { type := "tool_use", id := some "B", name := some "Bash",
      input := some [("command", "ls")] },
    { type := "result", session_id := some "s1" } ]

/-- C1 (counterexample): after the sequence [tool-start A, tool-result A,
tool-start B, result] on a fresh classifier, the pending-tool map is NOT
empty — the unmatched entry for B is still pending, refuting the claim's
final conjunct. -/
theorem c1_pending_not_empty :
    (runMessages 0 (mkClassifier "p1") c1Msgs).1.pending_tools ≠ [] := by
  decide

/-- C1 (amended): the sequence emits exactly ToolStart(A), ToolResult(A)
with nonnegative duration, ToolStart(B), Completion, in that order, and
afterwards the pending-tool map holds exactly the unmatched entry for B. -/
theorem c1_events_in_order :
    runMessages 0 (mkClassifier "p1") c1Msgs =
      ({ project_id := "p1",
         pending_tools := [("B", { name := "Bash", input := [("command", "ls")],
                                   start_time := 2 })],
         response_text := "", start_time := none, message_count := 4 },
       [Event.toolUse "A" "Read" "📖 Reading: /tmp/x" [("file_path", "/tmp/x")] 0,
        Event.toolResult "A" "Read" (some "ok") false (some 1) 1,
        Event.toolUse "B" "Bash" "💻 Running: ls" [("command", "ls")] 2,
        Event.completion (some "s1") false none none none none 4 3]) ∧
    (0 : Int) ≤ 1 := by
  constructor
  · decide
  · decide

/-- C5: a thinking (or ultrathinking) message emits exactly one Thinking
event; content of at most 200 characters passes through unchanged, longer
content is cut to its first 200 characters plus a trailing ellipsis. -/
theorem c5_thinking_truncation (now : Int) (st : ClassifierState) (msg : Msg)
    (h : msg.type = "thinking" ∨ msg.type = "ultrathinking") :
    ((msg.content.getD "").length ≤ 200 →
      handle_message now st msg =
        ({ st with message_count := st.message_count + 1 },
         [Event.assistantThinking (msg.content.getD "") now])) ∧
    ((msg.content.getD "").length > 200 →
      handle_message now st msg =
        ({ st with message_count := st.message_count + 1 },
         [Event.assistantThinking
            (pyTake (msg.content.getD "") 200 ++ "...") now])) := by
  have hnt : ¬ msg.type = "text" := by
    rcases h with h | h <;> rw [h] <;> decide
  have hok : msg.type = "ultrathinking" ∨ msg.type = "thinking" := h.symm
  constructor
  · intro hlen
    simp only [handle_message, if_neg hnt, if_pos hok, handle_thinking]
    rw [if_neg (by omega)]
  · intro hlen
    simp only [handle_message, if_neg hnt, if_pos hok, handle_thinking]
    rw [if_pos hlen]

/-- C5 witness at a short and a long concrete thinking message. -/
theorem c5_thinking_truncation_witness :
    handle_message 0 (mkClassifier "p1") { type := "thinking", content := some "hi" } =
      ({ project_id := "p1", message_count := 1 },
       [Event.assistantThinking "hi" 0]) := by
  have h := c5_thinking_truncation 0 (mkClassifier "p1")
    { type := "thinking", content := some "hi" } (Or.inl rfl)
  exact h.1 (by decide)

/-- C7: a tool-result message never raises; an unmatched id yields name
"unknown" and no duration, a matched id yields the recorded name and
duration now minus the recorded start time; the emitted content is the
500-character truncation (sent as None when the content is empty) and
never exceeds 500 characters. -/
theorem c7_tool_result_tolerant (now : Int) (st : ClassifierState) (msg : Msg)
    (h : msg.type = "tool_result") :
    (dictLookup (msg.tool_use_id.getD "") st.pending_tools = none →
      handle_message now st msg =
        ({ st with message_count := st.message_count + 1,
                   pending_tools := dictRemove (msg.tool_use_id.getD "") st.pending_tools },
         [Event.toolResult (msg.tool_use_id.getD "") "unknown"
            (if msg.content.getD "" = "" then none
             else some (pyTake (msg.content.getD "") 500))
            (msg.is_error.getD false) none now])) ∧
    (∀ pt, dictLookup (msg.tool_use_id.getD "") st.pending_tools = some pt →
      handle_message now st msg =
        ({ st with message_count := st.message_count + 1,
                   pending_tools := dictRemove (msg.tool_use_id.getD "") st.pending_tools },
         [Event.toolResult (msg.tool_use_id.getD "") pt.name
            (if msg.content.getD "" = "" then none
             else some (pyTake (msg.content.getD "") 500))
            (msg.is_error.getD false) (some (now - pt.start_time)) now])) ∧
    (∀ s, (if msg.content.getD "" = "" then (none : Option String)
           else some (pyTake (msg.content.getD "") 500)) = some s →
      s.length ≤ 500) := by
  have h1 : ¬ msg.type = "text" := by rw [h]; decide
  have h2 : ¬ (msg.type = "ultrathinking" ∨ msg.type = "thinking") := by
    rw [h]; decide
  have h3 : ¬ msg.type = "tool_use" := by rw [h]; decide
  refine ⟨fun hl => ?_, fun pt hl => ?_, fun s hs => ?_⟩
  · simp only [handle_message, if_neg h1, if_neg h2, if_neg h3, if_pos h,
      handle_tool_result, hl]
  · simp only [handle_message, if_neg h1, if_neg h2, if_neg h3, if_pos h,
      handle_tool_result, hl]
  · by_cases hc : msg.content.getD "" = ""
    · rw [if_pos hc] at hs
      exact absurd hs (by simp)
    · rw [if_neg hc] at hs
      cases hs
      exact pyTake_length_le _ _

/-- C7 witness: an unmatched tool-result on a fresh classifier. -/
theorem c7_tool_result_tolerant_witness :
    handle_message 5 (mkClassifier "p1")
      { type := "tool_result", tool_use_id := some "Z", content := some "boom" } =
      ({ project_id := "p1", message_count := 1 },
       [Event.toolResult "Z" "unknown" (some "boom") false none 5]) := by
  have h := c7_tool_result_tolerant 5 (mkClassifier "p1")
    { type := "tool_result", tool_use_id := some "Z", content := some "boom" } rfl
  have h2 := h.1 rfl
  simpa using h2

/-- Fault-free OS behavior used by concrete scenarios. -/
def osNominal : OsBehavior :=
  { openptyR := Except.ok (3, 4), spawnR := Except.ok 42,
    writeR := Except.ok (), selectReadable := false, readRaises := false,
    kernelBuf := [], procAlive := true, waitTimesOut := false,
    shell := "/bin/bash" }

/-- A session after a successful start: pid 42, master fd 3, slave fd 4. -/
def startedTerm : TermState :=
  { project_id := "p1", current_dir := "/home/user",
    process := some 42, master_fd := some 3, slave_fd := some 4 }

/-- C2 (counterexample): on a fresh session (no start), `resize_terminal`
returns success with no error — it does not fail with a not-started
error as the claim states. -/
theorem c2_resize_before_start_succeeds :
    (resize_terminal osNominal 30 100 (freshTerm "p1" "/home/user")).1 =
      { success := true } ∧
    (resize_terminal osNominal 30 100 (freshTerm "p1" "/home/user")).1.error = none := by
  decide

/-- C2 (amended): `resize_terminal` never raises and never terminates the
child; before a start it returns success as a silent no-op (no OS action);
after a successful start, for dimensions within the unsigned-short range
it succeeds without terminating the child (SIGWINCH only when the process
is alive, skipped when it is dead, still returning success); for a
dimension above 65535 the `struct.pack` raises and the handler catches it,
returning a non-fatal failure result before any OS action. -/
theorem c2_resize_behavior (os : OsBehavior) (rows cols : Nat) (st : TermState) :
    (resize_terminal os rows cols st).2.1 = st ∧
    noTermination (resize_terminal os rows cols st).2.2 = true ∧
    wellFormedResult (resize_terminal os rows cols st).1 ∧
    (fdTruthy st.master_fd = false →
      (resize_terminal os rows cols st).1.success = true ∧
      (resize_terminal os rows cols st).2.2 = []) ∧
    (rows ≤ 65535 → cols ≤ 65535 →
      (resize_terminal os rows cols st).1.success = true) ∧
    (∀ m pid, st.master_fd = some m → m ≠ 0 → rows ≤ 65535 → cols ≤ 65535 →
      st.process = some pid → os.procAlive = true →
      (resize_terminal os rows cols st).2.2 =
        [OsAction.ioctlWinsize m rows cols, OsAction.sigwinch pid]) ∧
    (∀ m, st.master_fd = some m → m ≠ 0 → rows ≤ 65535 → cols ≤ 65535 →
      st.process = none ∨ os.procAlive = false →
      (resize_terminal os rows cols st).2.2 = [OsAction.ioctlWinsize m rows cols]) ∧
    (fdTruthy st.master_fd = true → 65535 < rows ∨ 65535 < cols →
      (resize_terminal os rows cols st).1.success = false ∧
      (resize_terminal os rows cols st).1.error.isSome = true ∧
      (resize_terminal os rows cols st).2.2 = []) := by
  refine ⟨?_, ?_, ?_, ?_, ?_, ?_, ?_, ?_⟩
  · unfold resize_terminal
    split
    · split <;> rfl
    · rfl
  · unfold resize_terminal
    split
    · split
      · rcases hp : st.process with _ | pid
        · simp [noTermination, hp]
        · by_cases ha : os.procAlive <;> simp [noTermination, hp, ha]
      · rfl
    · rfl
  · unfold resize_terminal wellFormedResult
    split
    · split <;> simp
    · simp
  · intro hf
    unfold resize_terminal
    rw [if_neg (by simp [hf])]
    exact ⟨rfl, rfl⟩
  · intro hr hc
    unfold resize_terminal
    split
    · rw [if_pos (by simp [hr, hc])]
    · rfl
  · intro m pid hm hm0 hr hc hp ha
    unfold resize_terminal
    rw [if_pos (by simp [fdTruthy, hm, hm0]), if_pos (by simp [hr, hc])]
    simp [hm, hp, ha]
  · intro m hm hm0 hr hc hdead
    unfold resize_terminal
    rw [if_pos (by simp [fdTruthy, hm, hm0]), if_pos (by simp [hr, hc])]
    rcases hdead with hd | hd
    · simp [hm, hd]
    · rcases hp : st.process with _ | pid <;> simp [hm, hd, hp]
  · intro hf hrange
    unfold resize_terminal
    rw [if_pos hf, if_neg (by rcases hrange with h | h <;> simp <;> omega)]
    exact ⟨rfl, rfl, rfl⟩

/-- C2 witness: the amended statement instantiated on a started session
with a live process, on one whose process died, and on out-of-range
dimensions where the pack failure is caught. -/
theorem c2_resize_behavior_witness :
    (resize_terminal osNominal 30 100 startedTerm).2.2 =
      [OsAction.ioctlWinsize 3 30 100, OsAction.sigwinch 42] ∧
    (resize_terminal { osNominal with procAlive := false } 30 100 startedTerm).2.2 =
      [OsAction.ioctlWinsize 3 30 100] ∧
    ((resize_terminal osNominal 70000 100 startedTerm).1.success = false ∧
     (resize_terminal osNominal 70000 100 startedTerm).1.error.isSome = true ∧
     (resize_terminal osNominal 70000 100 startedTerm).2.2 = []) := by
  refine ⟨?_, ?_, ?_⟩
  · exact (c2_resize_behavior osNominal 30 100 startedTerm).2.2.2.2.2.1
      3 42 rfl (by decide) (by decide) (by decide) rfl rfl
  · exact (c2_resize_behavior { osNominal with procAlive := false } 30 100
      startedTerm).2.2.2.2.2.2.1 3 rfl (by decide) (by decide) (by decide) (Or.inr rfl)
  · exact (c2_resize_behavior osNominal 70000 100 startedTerm).2.2.2.2.2.2.2
      (by decide) (Or.inl (by decide))

/-- The spawn call fails after `openpty` succeeded. -/
def osSpawnFail : OsBehavior :=
  { osNominal with spawnR := Except.error "spawn failed" }

/-- C3 (counterexample): with `openpty` succeeding (fds 3 and 4) and the
process spawn failing, `start_session` returns a failure result while both
freshly acquired fds remain stored in the session and no close is
performed — the fds are not released before returning. -/
theorem c3_fds_not_released_on_spawn_failure :
    (start_session osSpawnFail none (freshTerm "p1" "/home/user")).1.success = false ∧
    (start_session osSpawnFail none (freshTerm "p1" "/home/user")).2.1.master_fd = some 3 ∧
    (start_session osSpawnFail none (freshTerm "p1" "/home/user")).2.1.slave_fd = some 4 ∧
    countCloses (start_session osSpawnFail none (freshTerm "p1" "/home/user")).2.2 = 0 := by
  decide

/-- C3 (amended): `start_session` either returns success carrying the
project id as session identifier, or returns a failure result; on the
spawn-failure path the partially acquired pty fds are NOT released — they
stay stored in the session and the call performs no close action; on an
`openpty` failure nothing was acquired and the state is unchanged. -/
theorem c3_start_session_behavior (os : OsBehavior) (command : Option String)
    (st : TermState) :
    (∀ m s pid, os.openptyR = Except.ok (m, s) → os.spawnR = Except.ok pid →
      (start_session os command st).1.success = true ∧
      (start_session os command st).1.session_id = some st.project_id) ∧
    (∀ m s e, os.openptyR = Except.ok (m, s) → os.spawnR = Except.error e →
      (start_session os command st).1.success = false ∧
      (start_session os command st).1.error = some e ∧
      (start_session os command st).2.1.master_fd = some m ∧
      (start_session os command st).2.1.slave_fd = some s ∧
      countCloses (start_session os command st).2.2 = 0) ∧
    (∀ e, os.openptyR = Except.error e →
      (start_session os command st).1.success = false ∧
      (start_session os command st).2.1 = st ∧
      (start_session os command st).2.2 = []) := by
  refine ⟨fun m s pid ho hs => ?_, fun m s e ho hs => ?_, fun e ho => ?_⟩
  · simp [start_session, ho, hs]
  · refine ⟨?_, ?_, ?_, ?_, ?_⟩
    · simp [start_session, ho, hs]
    · simp [start_session, ho, hs]
    · simp [start_session, ho, hs]
    · simp [start_session, ho, hs]
    · have htr : (start_session os command st).2.2 =
          setup_terminal { st with master_fd := some m, slave_fd := some s } := by
        simp [start_session, ho, hs]
      rw [htr]
      unfold setup_terminal
      split <;> rfl
  · simp [start_session, ho]

/-- C3 witness: the amended statement at a fault-free behavior and at the
spawn-failure behavior. -/
theorem c3_start_session_behavior_witness :
    ((start_session osNominal none (freshTerm "p1" "/home/user")).1.success = true ∧
     (start_session osNominal none (freshTerm "p1" "/home/user")).1.session_id =
       some "p1") ∧
    countCloses (start_session osSpawnFail none (freshTerm "p1" "/home/user")).2.2 = 0 := by
  constructor
  · exact (c3_start_session_behavior osNominal none (freshTerm "p1" "/home/user")).1
      3 4 42 rfl rfl
  · exact ((c3_start_session_behavior osSpawnFail none
      (freshTerm "p1" "/home/user")).2.1 3 4 "spawn failed" rfl rfl).2.2.2.2

/-- C4: `close_session` is idempotent — both consecutive calls return
success, the second call performs no OS action and leaves the state as it
was, and for a session holding two distinct nonzero fds each fd is closed
exactly once across the two calls. -/
theorem c4_close_idempotent (os os2 : OsBehavior) (st : TermState) :
    (close_session os st).1.success = true ∧
    (close_session os2 (close_session os st).2.1).1.success = true ∧
    (close_session os2 (close_session os st).2.1).2.1 = (close_session os st).2.1 ∧
    (close_session os2 (close_session os st).2.1).2.2 = [] ∧
    (∀ m s, st.master_fd = some m → st.slave_fd = some s → m ≠ 0 → s ≠ 0 → m ≠ s →
      countCloseOf m ((close_session os st).2.2 ++
        (close_session os2 (close_session os st).2.1).2.2) = 1 ∧
      countCloseOf s ((close_session os st).2.2 ++
        (close_session os2 (close_session os st).2.1).2.2) = 1) := by
  refine ⟨rfl, ?_, ?_, ?_, ?_⟩
  · simp [close_session]
  · simp [close_session, fdTruthy]
  · simp [close_session, fdTruthy]
  · intro m s hm hs hm0 hs0 hms
    rcases hp : st.process with _ | pid <;> by_cases hw : os.waitTimesOut <;>
      refine ⟨?_, ?_⟩ <;>
      simp [close_session, hp, hw, hm, hs, fdTruthy, hm0, hs0, countCloseOf,
        List.count_append, List.count_cons, beq_iff_eq, hms, Ne.symm hms]

/-- C4 witness: two consecutive closes on a started session with fds 3
and 4. -/
theorem c4_close_idempotent_witness :
    countCloseOf 3 ((close_session osNominal startedTerm).2.2 ++
      (close_session osNominal (close_session osNominal startedTerm).2.1).2.2) = 1 ∧
    countCloseOf 4 ((close_session osNominal startedTerm).2.2 ++
      (close_session osNominal (close_session osNominal startedTerm).2.1).2.2) = 1 := by
  exact (c4_close_idempotent osNominal osNominal startedTerm).2.2.2.2
    3 4 rfl rfl (by decide) (by decide) (by decide)

/-- Kernel buffer holding an invalid UTF-8 lead byte followed by "hi". -/
def osReadable : OsBehavior :=
  { osNominal with selectReadable := true, kernelBuf := [255, 104, 105] }

/-- C6 (counterexample): with the bytes 0xFF 'h' 'i' available, the code
decodes with `errors='ignore'` and returns "hi" — the invalid byte is
dropped, not replaced, so the output differs from the lossy-replacement
decoding "�" ++ "hi" the claim asserts. -/
theorem c6_invalid_bytes_dropped_not_replaced :
    (read_output osReadable startedTerm).1.output = some "hi" ∧
    utf8Decode DecodeMode.replaceErrors (osReadable.kernelBuf.take 4096) =
      "�" ++ "hi" ∧
    (read_output osReadable startedTerm).1.output ≠
      some (utf8Decode DecodeMode.replaceErrors (osReadable.kernelBuf.take 4096)) := by
  refine ⟨by decide, by decide, by decide⟩

/-- C6 (amended): on a poll where the primary fd is readable and the read
does not raise, `read_output` reads at most 4096 bytes and decodes them as
UTF-8 with invalid byte sequences silently dropped (`errors='ignore'`),
forwarding the decoded text with `has_more` set. -/
theorem c6_read_output_ignores_invalid (os : OsBehavior) (st : TermState)
    (hm : fdTruthy st.master_fd = true) (hp : st.process.isSome = true)
    (hr : os.selectReadable = true) (hnr : os.readRaises = false) :
    read_output os st =
      ({ success := true,
         output := some (utf8Decode DecodeMode.ignoreErrors (os.kernelBuf.take 4096)),
         has_more := some true },
       st, [OsAction.readFd (st.master_fd.getD 0) 4096]) ∧
    (os.kernelBuf.take 4096).length ≤ 4096 := by
  constructor
  · simp [read_output, hm, hp, hr, hnr]
  · rw [List.length_take]
    exact min_le_left _ _

/-- C6 witness: the amended statement at the concrete readable behavior. -/
theorem c6_read_output_ignores_invalid_witness :
    read_output osReadable startedTerm =
      ({ success := true, output := some "hi", has_more := some true },
       startedTerm, [OsAction.readFd 3 4096]) ∧
    (osReadable.kernelBuf.take 4096).length ≤ 4096 := by
  have h := c6_read_output_ignores_invalid osReadable startedTerm
    (by decide) (by decide) (by decide) (by decide)
  exact ⟨by rw [h.1]; decide, h.2⟩

/-- C8: `broadcast_to_project` always returns an outcome (never an
exception): with no bound channel it is a silent no-op, a successful send
delivers the message, and a raising send is caught and logged. -/
theorem c8_broadcast_never_propagates (reg : WsRegistry) (pid msg : String) :
    (lookupChan pid reg.connections = none →
      broadcast_to_project reg pid msg = BroadcastOutcome.noChannel) ∧
    (∀ ch, lookupChan pid reg.connections = some ch → ch.sendR = Except.ok () →
      broadcast_to_project reg pid msg = BroadcastOutcome.delivered ch.chanId msg) ∧
    (∀ ch e, lookupChan pid reg.connections = some ch → ch.sendR = Except.error e →
      broadcast_to_project reg pid msg = BroadcastOutcome.sendFailedLogged ch.chanId e) := by
  refine ⟨fun h => ?_, fun ch h hsend => ?_, fun ch e h hsend => ?_⟩
  · simp [broadcast_to_project, h]
  · simp [broadcast_to_project, h, hsend]
  · simp [broadcast_to_project, h, hsend]

/-- C8 witness: an unbound project id, a bound channel that delivers, and a
bound channel whose send raises. -/
theorem c8_broadcast_never_propagates_witness :
    broadcast_to_project ⟨[]⟩ "p1" "m" = BroadcastOutcome.noChannel ∧
    broadcast_to_project ⟨[("p1", ⟨7, Except.ok ()⟩)]⟩ "p1" "m" =
      BroadcastOutcome.delivered 7 "m" ∧
    broadcast_to_project ⟨[("p1", ⟨7, Except.error "closed"⟩)]⟩ "p1" "m" =
      BroadcastOutcome.sendFailedLogged 7 "closed" := by
  refine ⟨?_, ?_, ?_⟩
  · exact (c8_broadcast_never_propagates ⟨[]⟩ "p1" "m").1 rfl
  · exact (c8_broadcast_never_propagates ⟨[("p1", ⟨7, Except.ok ()⟩)]⟩ "p1" "m").2.1
      ⟨7, Except.ok ()⟩ rfl rfl
  · exact (c8_broadcast_never_propagates ⟨[("p1", ⟨7, Except.error "closed"⟩)]⟩
      "p1" "m").2.2 ⟨7, Except.error "closed"⟩ "closed" rfl rfl

/-- C9: every public session operation is total at its interface — for
every state and every OS behavior, including every injected failure, it
returns a structured result that either succeeds or fails carrying an
error string; no exception escapes. -/
theorem c9_operations_total (os : OsBehavior) (st : TermState)
    (command : Option String) (data : String) (rows cols : Nat) :
    wellFormedResult (start_session os command st).1 ∧
    wellFormedResult (send_input os data st).1 ∧
    wellFormedResult (read_output os st).1 ∧
    wellFormedResult (resize_terminal os rows cols st).1 ∧
    wellFormedResult (close_session os st).1 := by
  refine ⟨?_, ?_, ?_, ?_, ?_⟩
  · rcases ho : os.openptyR with e | ⟨m, s⟩
    · right
      simp [start_session, ho, wellFormedResult]
    · rcases hs : os.spawnR with e | pid
      · right
        simp [start_session, ho, hs]
      · left
        simp [start_session, ho, hs]
  · unfold send_input wellFormedResult
    split
    · rcases hw : os.writeR with e | u <;> simp [hw]
    · simp
  · unfold read_output wellFormedResult
    split
    · split
      · split <;> simp
      · simp
    · simp
  · unfold resize_terminal wellFormedResult
    split
    · split <;> simp
    · simp
  · left
    rfl

/-- C10: after `close_session` the process handle and both fds are
cleared, `is_alive` is false, and every subsequent `send_input` or
`read_output` fails with the not-started error, leaving the closed state
unchanged (so the failure persists until a new successful start). -/
theorem c10_close_clears_session (os os2 os3 : OsBehavior) (st : TermState)
    (data : String) :
    (close_session os st).1.success = true ∧
    (close_session os st).2.1.process = none ∧
    (close_session os st).2.1.master_fd = none ∧
    (close_session os st).2.1.slave_fd = none ∧
    is_alive os2 (close_session os st).2.1 = false ∧
    send_input os2 data (close_session os st).2.1 =
      ({ success := false, error := some "Sessão não iniciada" },
       (close_session os st).2.1, []) ∧
    read_output os3 (close_session os st).2.1 =
      ({ success := false, error := some "Sessão não iniciada" },
       (close_session os st).2.1, []) := by
  refine ⟨rfl, rfl, rfl, rfl, ?_, ?_, ?_⟩
  · simp [is_alive, close_session]
  · simp [send_input, close_session, fdTruthy]
  · simp [read_output, close_session, fdTruthy]

end Claudable
